import Mathlib

/-!
# mmtools: a shallow embedding of `mmtools.go`

The Go program is embedded as pure functions that return a `Run`: the list of
observable events the code performs, in order, together with the way the code
stops (normal return, `os.Exit`, or a Go run-time panic).

Conventions of the embedding.

* A Go `string` is a Lean `String`; Go's `len(s)` (the number of bytes) is
  `String.utf8ByteSize`.
* A Go `int` / `int64` is an `Int`; the values that occur stay far inside the
  64-bit range, so no wrap-around has to be modelled.  Go's `/` truncates
  towards zero, which is `Int.tdiv`.
* A Go `map[string]T` is an association list `List (String × T)` listed in the
  order in which the (single) `range` loop over it visits the entries, so a
  statement that holds for every list holds for every iteration order.
  `m[k]` on a map of pointers is `goLookup`, with `none` for Go's `nil`.
  The entries themselves are records (non-`nil`), as in the data model of the
  specification.
* The package `lib/platform/model` (types and the remote client) and the Go
  standard library are not part of `mmtools.go`; the remote client is a
  parameter (`Remote`), its data types follow the specification.
-/

namespace MMTools

/-! ## Data model of the remote collaborator -/

/-- Modelled from the spec: `model.AppError` of `lib/platform/model`, the error
value a remote call returns; only its identity matters to `mmtools.go`. -/
structure AppError where
  Message : String
  deriving DecidableEq, Repr

/-- Modelled from the spec: `model.User` of `lib/platform/model` (id, username,
team membership). -/
structure User where
  Id : String
  Username : String
  TeamId : String
  deriving DecidableEq, Repr

/-- Modelled from the spec: `model.Channel` of `lib/platform/model` (id, name). -/
structure Channel where
  Id : String
  Name : String
  deriving DecidableEq, Repr

/-- Modelled from the spec: `model.Post` of `lib/platform/model`; `CreateAt` is
the creation timestamp in epoch milliseconds (an `int64`). -/
structure Post where
  Id : String
  ChannelId : String
  CreateAt : Int
  Message : String
  UserId : String
  deriving DecidableEq, Repr

/-- Modelled from the spec: `model.PostList` of `lib/platform/model`, an ordered
sequence of post ids (`Order`) and a map from id to post (`Posts`). -/
structure PostList where
  Order : List String
  Posts : List (String × Post)
  deriving DecidableEq, Repr

/-- The Go expression `m[k]` on a map whose values are pointers: the entry of
`k`, or `nil` (`none`) when the map has no entry for `k`. -/
def goLookup {α : Type} (m : List (String × α)) (k : String) : Option α :=
  m.lookup k

/-! ## Observable events and the `Run` monad -/

/-- What a `fmt.Print*` call on standard output renders.  The text of an
instant (`time.Time`) and of a `%q` operand is produced by the Go standard
library, so those lines are kept structured. -/
inductive Output where
  /-- A line of plain text. -/
  | text (s : String)
  /-- The line `fmt.Println(time.Unix(sec, nsec))`. -/
  | instant (sec nsec : Int)
  /-- The line `fmt.Printf("%q is not valid command.\n", arg)`. -/
  | invalidCommand (arg : String)
  deriving DecidableEq, Repr

/-- Requests to the remote platform client (`model.Client`). -/
inductive Call where
  /-- The constructor `model.NewClient(ep)`. -/
  | newClient (ep : String)
  /-- The request `c.LoginByEmail(team, mail, pass)`. -/
  | loginByEmail (team mail pass : String)
  /-- The request `c.GetProfiles(teamId, "")`. -/
  | getProfiles (teamId : String)
  /-- The request `c.GetStatuses(keys)`. -/
  | getStatuses (keys : List String)
  /-- The request `c.GetChannels("")`. -/
  | getChannels
  /-- The request `c.GetPostsSince(channelId, since)`. -/
  | getPostsSince (channelId : String) (since : Int)
  deriving DecidableEq, Repr

/-- One observable action of the program. -/
inductive Event where
  /-- The read `os.Getenv(name)`. -/
  | getenv (name : String)
  /-- A line written to standard output. -/
  | out (o : Output)
  /-- A line of text written to standard error with `fmt.Fprintln`. -/
  | err (line : String)
  /-- The line `fmt.Fprintln(os.Stderr, err)` for an `*model.AppError`. -/
  | errAppError (e : AppError)
  /-- The dump `pp.Fprintln(os.Stderr, v)` of the Go variable named `var`. -/
  | ppDump (var : String)
  /-- The diagnostic the `flag` package writes before it ends the process. -/
  | flagDiag
  /-- A request to the remote client. -/
  | call (c : Call)
  deriving DecidableEq, Repr

/-- How a piece of code stops other than by returning. -/
inductive Stop where
  /-- The call `os.Exit(code)`. -/
  | exit (code : Nat)
  /-- A Go run-time panic (the process ends with status 2). -/
  | panic (reason : String)
  deriving DecidableEq, Repr

/-- The events a piece of code performs and how it ends: `.ok a` when it
returns `a`, `.error s` when it stops the process with `s`. -/
structure Run (α : Type) where
  trace : List Event
  result : Except Stop α

namespace Run

/-- Return without any event. -/
def ret {α : Type} (a : α) : Run α := ⟨[], .ok a⟩

/-- Sequencing: the second part runs only when the first one returns. -/
def andThen {α β : Type} (m : Run α) (f : α → Run β) : Run β :=
  match m.result with
  | .error s => ⟨m.trace, .error s⟩
  | .ok a => ⟨m.trace ++ (f a).trace, (f a).result⟩

instance : Monad Run where
  pure := ret
  bind := andThen

/-- Perform one event and return. -/
def emit (e : Event) : Run Unit := ⟨[e], .ok ()⟩

/-- Stop the process. -/
def stop {α : Type} (s : Stop) : Run α := ⟨[], .error s⟩

/-- Lift a pure computation that may panic. -/
def ofExcept {α : Type} : Except String α → Run α
  | .ok a => ⟨[], .ok a⟩
  | .error msg => ⟨[], .error (.panic msg)⟩

/-- The exit status of the process when `main` ends with this result: 0 on a
normal return, the argument of `os.Exit`, 2 after a run-time panic. -/
def exitStatus {α : Type} (r : Run α) : Nat :=
  match r.result with
  | .ok _ => 0
  | .error (.exit code) => code
  | .error (.panic _) => 2

/-- The lines written to standard output, in order. -/
def stdout {α : Type} (r : Run α) : List Output :=
  r.trace.filterMap fun e => match e with
    | .out o => some o
    | _ => none

/-- The requests made to the remote client, in order. -/
def calls {α : Type} (r : Run α) : List Call :=
  r.trace.filterMap fun e => match e with
    | .call c => some c
    | _ => none

/-- The environment variables read, in order. -/
def getenvs {α : Type} (r : Run α) : List String :=
  r.trace.filterMap fun e => match e with
    | .getenv n => some n
    | _ => none

end Run

open Run

/-! ## Debug log functions (`debugT`) -/

/-- Go's `strings.Repeat(s, count)`: `count` copies of `s`; it panics when
`count` is negative. -/
def Repeat (s : String) (count : Int) : Except String String :=
  if count < 0 then .error "strings: negative Repeat count"
  else .ok (String.join (List.replicate count.toNat s))

/-- The method `debugT.PrintVar`: dump a value on standard error when the
switch is on. -/
def PrintVar (d : Bool) (var : String) : Run Unit :=
  if d then emit (.ppDump var) else pure ()

/-- The method `debugT.PrintSep`. -/
def PrintSep (d : Bool) (str : String) : Run Unit :=
  let max : Int := 80
  if d then
    let e : Int := (str.utf8ByteSize : Int) % 2
    let n : Int := (max - (str.utf8ByteSize : Int) - e - 2).tdiv 2
    do
      let l ← ofExcept (Repeat "=" n)
      let r ← ofExcept (Repeat "=" (n + e))
      emit (.err (l ++ " " ++ str ++ " " ++ r))
  else pure ()

/-- The package variable `debug`: `debugT(os.Getenv("MMDEBUG") == "TRUE")`. -/
def debug (env : String → String) : Bool :=
  decide (env "MMDEBUG" = "TRUE")

/-! ## Mattermost functions -/

/-- The struct `MMInfo`. -/
structure MMInfo where
  ep : String
  team : String
  mail : String
  pass : String
  deriving DecidableEq, Repr

/-- The function `GetMMInfo`: the four reads happen left to right. -/
def GetMMInfo (env : String → String) : Run MMInfo := do
  emit (.getenv "MMEP")
  emit (.getenv "MMTEAM")
  emit (.getenv "MMMAIL")
  emit (.getenv "MMPASS")
  pure ⟨env "MMEP", env "MMTEAM", env "MMMAIL", env "MMPASS"⟩

/-- The function `HandleError`; it never returns. -/
def HandleError {α : Type} (d : Bool) (err : AppError) : Run α := do
  PrintVar d "err"
  emit (.errAppError err)
  stop (.exit 1)

/-- The function `CheckMMInfo`: the expressionless-tag switch `switch ""`
compares `""` with the cases from top to bottom. -/
def CheckMMInfo (info : MMInfo) : Run Unit :=
  let report (key : String) : Run Unit := do
    emit (.err ("Environment variable is not set:" ++ " " ++ key))
    stop (.exit 1)
  if "" = info.ep then report "MMEP"
  else if "" = info.team then report "MMTEAM"
  else if "" = info.mail then report "MMMAIL"
  else if "" = info.pass then report "MMPASS"
  else pure ()

/-- The remote platform client of `lib/platform/model`, taken as a parameter.
Each field is the answer of the collaborator to the request of that name: an
`*model.AppError`, or the decoded `Data` of the result.  `LoginByEmail`,
`GetProfiles`, `GetStatuses` and `GetChannels` are requested at most once in a
run.  The first argument of `GetPostsSince` is the number of `GetPostsSince`
requests made earlier in the run, so that the collaborator may answer the same
channel id differently at different moments. -/
structure Remote where
  LoginByEmail : String → String → String → Except AppError User
  GetProfiles : String → Except AppError (List (String × User))
  GetStatuses : List String → Except AppError (List (String × String))
  GetChannels : Except AppError (List Channel)
  GetPostsSince : Nat → String → Int → Except AppError PostList

/-- The struct `MMClient`; the client handle itself is the parameter `Remote`. -/
structure MMClient where
  UserInfo : User
  deriving DecidableEq, Repr

/-- The function `GetMMClient`. -/
def GetMMClient (env : String → String) (R : Remote) : Run MMClient := do
  let mminfo ← GetMMInfo env
  PrintVar (debug env) "mminfo"
  CheckMMInfo mminfo
  emit (.call (.newClient mminfo.ep))
  PrintSep (debug env) "login"
  emit (.call (.loginByEmail mminfo.team mminfo.mail mminfo.pass))
  match R.LoginByEmail mminfo.team mminfo.mail mminfo.pass with
  | .error err => HandleError (debug env) err
  | .ok user => do
    PrintVar (debug env) "res"
    pure ⟨user⟩

/-- The function `PrintPost`; `post` is a pointer, `none` being `nil`, and
reading `post.CreateAt` through a `nil` pointer is a run-time panic. -/
def PrintPost (d : Bool) (post : Option Post) : Run Unit := do
  PrintVar d "post"
  match post with
  | none => stop (.panic "invalid memory address or nil pointer dereference")
  | some p => emit (.out (.instant (p.CreateAt.tdiv 1000) 0))

/-- The title `fmt.Sprintf("post %v %v", i, postid)`. -/
def postTitle (i : Nat) (postid : String) : String :=
  "post " ++ toString i ++ " " ++ postid

/-- The title `fmt.Sprintf("channel %v", i)`. -/
def channelTitle (i : Nat) : String :=
  "channel " ++ toString i

/-- The loop of `PrintPosts`, from index `i` on. -/
def PrintPostsFrom (d : Bool) (posts : List (String × Post)) : Nat → List String → Run Unit
  | _, [] => pure ()
  | i, postid :: rest => do
    PrintSep d (postTitle i postid)
    let post := goLookup posts postid
    PrintPost d post
    PrintPostsFrom d posts (i + 1) rest

/-- The function `PrintPosts`. -/
def PrintPosts (d : Bool) (order : List String) (posts : List (String × Post)) : Run Unit :=
  PrintPostsFrom d posts 0 order

/-! ## Command functions -/

/-- The text `usage` writes. -/
def usageText : String :=
  "usage: mmtools <command> [<args>]\nAvailable commands are:\n    ListUsers   List users\n    ExportChannel     Export specified channel"

/-- The function `usage`. -/
def usage : Run Unit :=
  emit (.err usageText)

/-- The field access `users[userid].Username`: a run-time panic when the map
has no entry for `userid` (the lookup yields a `nil` pointer). -/
def usernameOf (users : List (String × User)) (userid : String) : Run String :=
  match goLookup users userid with
  | none => stop (.panic "invalid memory address or nil pointer dereference")
  | some u => pure u.Username

/-- The loop `for userid, status := range statuses` of the `online` and of the
`offline` case, which print the user name of the entries whose status is
`want`. -/
def printByStatus (users : List (String × User)) (want : String) :
    List (String × String) → Run Unit
  | [] => pure ()
  | (userid, status) :: rest => do
    if status = want then
      let name ← usernameOf users userid
      emit (.out (.text name))
    printByStatus users want rest

/-- The loop `for userid, status := range statuses` of the `default` case. -/
def printAll (users : List (String × User)) : List (String × String) → Run Unit
  | [] => pure ()
  | (userid, status) :: rest => do
    let name ← usernameOf users userid
    emit (.out (.text (name ++ " " ++ status)))
    printAll users rest

/-- The `switch` of the `ListUsers` command that renders the statuses. -/
def renderStatuses (d : Bool) (onlineFlag offlineFlag : Bool)
    (users : List (String × User)) (statuses : List (String × String)) : Run Unit :=
  if onlineFlag then do
    PrintSep d "Printing Online Users"
    printByStatus users "online" statuses
  else if offlineFlag then do
    PrintSep d "Printing Offline Users"
    printByStatus users "offline" statuses
  else do
    PrintSep d "Printing All Users with status"
    printAll users statuses

/-- The block `if listUsersCommand.Parsed() { ... }` of `main`. -/
def listUsers (env : String → String) (R : Remote) (onlineFlag offlineFlag : Bool) :
    Run Unit := do
  PrintSep (debug env) "ListUsers"
  let mmClient ← GetMMClient env R
  PrintSep (debug env) "UserProfile"
  emit (.call (.getProfiles mmClient.UserInfo.TeamId))
  let users ← (match R.GetProfiles mmClient.UserInfo.TeamId with
    | .error err => HandleError (debug env) err
    | .ok users => do
      PrintVar (debug env) "res"
      PrintSep (debug env) "UserProfile"
      PrintVar (debug env) "users"
      pure users)
  PrintSep (debug env) "UserStatus"
  let keys := users.map Prod.fst
  emit (.call (.getStatuses keys))
  match R.GetStatuses keys with
  | .error err => HandleError (debug env) err
  | .ok statuses => do
    PrintVar (debug env) "res"
    renderStatuses (debug env) onlineFlag offlineFlag users statuses

/-- The loop `for i, channel := range channels` of the `ExportChannel`
command, from index `i` on; `k` counts the `GetPostsSince` requests made so
far. -/
def exportLoop (d : Bool) (R : Remote) : Nat → Nat → List Channel → Run Unit
  | _, _, [] => pure ()
  | i, k, channel :: rest => do
    PrintSep d (channelTitle i)
    PrintVar d "channel"
    if channel.Name = "town-square" then
      exportLoop d R (i + 1) k rest
    else do
      PrintSep d "getPosts"
      emit (.call (.getPostsSince channel.Id 0))
      match R.GetPostsSince k channel.Id 0 with
      | .error err => HandleError d err
      | .ok res => do
        PrintVar d "res"
        PrintPosts d res.Order res.Posts
      exportLoop d R (i + 1) (k + 1) rest

/-- The part of the block `if exportChannelCommand.Parsed() { ... }` of `main`
that follows the guard on the `name` flag. -/
def exportChannel (env : String → String) (R : Remote) : Run Unit := do
  let _mmClient ← GetMMClient env R
  PrintSep (debug env) "get channel"
  emit (.call .getChannels)
  let channels ← (match R.GetChannels with
    | .error err => HandleError (debug env) err
    | .ok channels => do
      PrintVar (debug env) "res"
      PrintSep (debug env) "channels"
      PrintVar (debug env) "channels"
      pure channels)
  exportLoop (debug env) R 0 0 channels

/-- The two flag sets of `main`, parsed by Go's `flag` package with
`flag.ExitOnError`: the values of the flags, or the exit status with which the
package ends the process when the arguments do not parse. -/
structure FlagSets where
  listUsers : List String → Except Nat (Bool × Bool)
  exportChannel : List String → Except Nat String

/-- The call `flagSet.Parse(os.Args[2:])`. -/
def parseFlags {α : Type} (p : List String → Except Nat α) (arguments : List String) : Run α :=
  match p arguments with
  | .ok v => pure v
  | .error code => do
    emit .flagDiag
    stop (.exit code)

/-- The function `main`; `args` is `os.Args`. -/
def main (env : String → String) (F : FlagSets) (R : Remote) (args : List String) : Run Unit :=
  match args with
  | [] => stop (.panic "index out of range")
  | [_] => usage
  | _ :: command :: rest =>
    if command = "ListUsers" then do
      let (onlineFlag, offlineFlag) ← parseFlags F.listUsers rest
      listUsers env R onlineFlag offlineFlag
      PrintSep (debug env) "END"
    else if command = "ExportChannel" then do
      let channelFlag ← parseFlags F.exportChannel rest
      if channelFlag = "" then
        emit (.out (.text "Please supply the recipient using -recipient option."))
      else do
        exportChannel env R
        PrintSep (debug env) "END"
    else do
      emit (.out (.invalidCommand command))
      usage
      stop (.exit 2)

/-! ## Specification-side definitions -/

/-- The name of the first empty configuration value in the fixed order
endpoint (`MMEP`), team (`MMTEAM`), email (`MMMAIL`), password (`MMPASS`), as
the specification words it; `none` when all four are present. -/
def firstMissing (info : MMInfo) : Option String :=
  ([("MMEP", info.ep), ("MMTEAM", info.team), ("MMMAIL", info.mail),
    ("MMPASS", info.pass)].find? fun p => p.2 = "").map Prod.fst

/-- The banner the specification describes for a title of at most 78 bytes:
`n` fill characters, a space, the title, a space, `n + e` fill characters,
with `e = len(title) mod 2` and `n = (80 - len(title) - e - 2) / 2`. -/
def bannerLine (title : String) : String :=
  let e := title.utf8ByteSize % 2
  let n := (80 - title.utf8ByteSize - e - 2) / 2
  String.mk (List.replicate n '=') ++ " " ++ title ++ " " ++
    String.mk (List.replicate (n + e) '=')

/-- The banner of `title` does not abort: the switch is off, or the title has
at most 78 bytes. -/
def sepFits (d : Bool) (title : String) : Prop :=
  d = false ∨ title.utf8ByteSize ≤ 78

instance (d : Bool) (title : String) : Decidable (sepFits d title) := by
  unfold sepFits; infer_instance

/-- The line `PrintPost` prints for a post: its creation time as the instant
with `CreateAt / 1000` seconds (Go's truncating division) and 0 nanoseconds. -/
def postLine (p : Post) : Output :=
  .instant (p.CreateAt.tdiv 1000) 0

/-- The map `posts` has an entry for `id`. -/
def hasEntry {α : Type} (m : List (String × α)) (id : String) : Bool :=
  (goLookup m id).isSome

/-- The lines of the ids of `order` that come before the first id without an
entry in `posts` (all of `order` when every id has an entry). -/
def postLines (posts : List (String × Post)) (order : List String) : List Output :=
  (order.takeWhile (hasEntry posts)).filterMap fun id => (goLookup posts id).map postLine

/-- Every banner of `PrintPosts` fits, the indices starting at `i`. -/
def postTitlesFit (d : Bool) (i : Nat) (order : List String) : Prop :=
  ∀ p ∈ order.enumFrom i, sepFits d (postTitle p.1 p.2)

instance (d : Bool) (i : Nat) (order : List String) : Decidable (postTitlesFit d i order) := by
  unfold postTitlesFit; infer_instance

/-- The channels the export does not skip: those whose name is not
`town-square`, in the order of the list. -/
def nonDefault (channels : List Channel) : List Channel :=
  channels.filter fun c => decide (c.Name ≠ "town-square")

/-- The answer of the collaborator to the request for the channel `p.2`, made
as request number `p.1`, with since-timestamp 0. -/
def fetchOf (R : Remote) (p : Nat × Channel) : Except AppError PostList :=
  R.GetPostsSince p.1 p.2.Id 0

/-- The fetch of the numbered channel succeeds. -/
def fetchSucceeds (R : Remote) (p : Nat × Channel) : Bool :=
  match fetchOf R p with
  | .ok _ => true
  | .error _ => false

/-- Every id of `Order` has an entry in `Posts`. -/
def wellFormed (pl : PostList) : Bool :=
  pl.Order.all (hasEntry pl.Posts)

/-- The fetch of the numbered channel succeeds and the post list it returns
has an entry for every id of its order. -/
def fetchGood (R : Remote) (p : Nat × Channel) : Bool :=
  match fetchOf R p with
  | .ok pl => wellFormed pl
  | .error _ => false

/-- The list `l` cut off right after its first element that is not `good`
(all of `l` when every element is good). -/
def cutAfterFirst {α : Type} (good : α → Bool) (l : List α) : List α :=
  l.takeWhile good ++ (l.dropWhile good).take 1

/-- The request the export loop makes for a numbered channel. -/
def requestOf (p : Nat × Channel) : Call :=
  .getPostsSince p.2.Id 0

/-- The lines printed for a numbered channel: those of its post list, up to
the first id without an entry; none when the fetch fails. -/
def fetchedLines (R : Remote) (p : Nat × Channel) : List Output :=
  match fetchOf R p with
  | .ok pl => postLines pl.Posts pl.Order
  | .error _ => []

/-- How the export loop ends on the numbered non-default channels: it returns
when every channel is good, exits with status 1 when the first channel that is
not good failed to fetch, and panics when that channel returned a post list
with a missing entry. -/
def loopResult (R : Remote) (numbered : List (Nat × Channel)) : Except Stop Unit :=
  match (numbered.dropWhile (fetchGood R)).head? with
  | none => .ok ()
  | some p =>
    match fetchOf R p with
    | .error _ => .error (.exit 1)
    | .ok _ => .error (.panic "invalid memory address or nil pointer dereference")

/-- The titles of the posts of the post list fetched for a numbered channel
fit (nothing to check when the fetch fails). -/
def fetchedTitlesFit (d : Bool) (R : Remote) (p : Nat × Channel) : Prop :=
  match fetchOf R p with
  | .ok pl => postTitlesFit d 0 pl.Order
  | .error _ => True

instance (d : Bool) (R : Remote) (p : Nat × Channel) : Decidable (fetchedTitlesFit d R p) := by
  unfold fetchedTitlesFit; split <;> infer_instance

/-- No banner of the export loop aborts: the titles `channel i` fit and so do
the titles of the posts of every post list the loop can receive. -/
def exportBannersFit (d : Bool) (R : Remote) (i k : Nat) (channels : List Channel) : Prop :=
  (∀ j, j < channels.length → sepFits d (channelTitle (i + j))) ∧
  (∀ p ∈ (nonDefault channels).enumFrom k, fetchedTitlesFit d R p)

instance (d : Bool) (R : Remote) (i k : Nat) (channels : List Channel) :
    Decidable (exportBannersFit d R i k channels) := by
  unfold exportBannersFit; infer_instance

/-- The entries of `statuses` a rendering mode prints: those with status
`online` when `online` is set; otherwise those with status `offline` when
`offline` is set; otherwise all of them. -/
def selectedBy (onlineFlag offlineFlag : Bool) (statuses : List (String × String)) :
    List (String × String) :=
  if onlineFlag then statuses.filter fun p => decide (p.2 = "online")
  else if offlineFlag then statuses.filter fun p => decide (p.2 = "offline")
  else statuses

/-- The line with the user name of the id of a status entry, when the id has
a profile. -/
def nameLine (users : List (String × User)) (p : String × String) : Option Output :=
  (goLookup users p.1).map fun u => .text u.Username

/-- The line `username status` of a status entry, when the id has a profile. -/
def nameStatusLine (users : List (String × User)) (p : String × String) : Option Output :=
  (goLookup users p.1).map fun u => .text (u.Username ++ " " ++ p.2)

/-- The line a rendering mode prints for a status entry. -/
def lineFor (onlineFlag offlineFlag : Bool) (users : List (String × User))
    (p : String × String) : Option Output :=
  if onlineFlag || offlineFlag then nameLine users p else nameStatusLine users p

/-- The id of a status entry has a profile. -/
def hasProfile (users : List (String × User)) (p : String × String) : Bool :=
  hasEntry users p.1

/-! ## Sample data -/

/-- An environment in which only the endpoint is set. -/
def sampleEnvNoTeam : String → String :=
  fun name => if name = "MMEP" then "http://localhost:8065" else ""

/-- A collaborator that rejects every request. -/
def rejectingRemote : Remote where
  LoginByEmail := fun _ _ _ => .error ⟨"rejected"⟩
  GetProfiles := fun _ => .error ⟨"rejected"⟩
  GetStatuses := fun _ => .error ⟨"rejected"⟩
  GetChannels := .error ⟨"rejected"⟩
  GetPostsSince := fun _ _ _ => .error ⟨"rejected"⟩

/-- A title of 79 bytes. -/
def longTitle : String := String.mk (List.replicate 79 'x')

/-- A post id of 72 bytes. -/
def longPostId : String := String.mk (List.replicate 72 'p')

/-- A post created at 1 000 000 ms. -/
def postP1 : Post := ⟨"p1", "c1", 1000000, "first", "u1"⟩

/-- A post created at 2 000 000 ms. -/
def postP2 : Post := ⟨"p2", "c1", 2000000, "second", "u2"⟩

/-- The channel list of the specification's example. -/
def sampleChannels : List Channel :=
  [⟨"c0", "town-square"⟩, ⟨"c1", "general"⟩, ⟨"c2", "random"⟩]

/-- The post list of the specification's example: order `p2`, `p1`. -/
def samplePostList : PostList :=
  ⟨["p2", "p1"], [("p1", postP1), ("p2", postP2)]⟩

/-- A post list whose order names `p1` while its map of posts is empty. -/
def danglingPostList : PostList :=
  ⟨["p1"], []⟩

/-- A user of the team `t1`. -/
def userAlice : User := ⟨"u1", "alice", "t1"⟩

/-- A second user of the team `t1`. -/
def userBob : User := ⟨"u2", "bob", "t1"⟩

/-- A collaborator that accepts the login and answers every request; every
channel has the post list `samplePostList`. -/
def sampleRemote : Remote where
  LoginByEmail := fun _ _ _ => .ok userAlice
  GetProfiles := fun _ => .ok [("u1", userAlice), ("u2", userBob)]
  GetStatuses := fun _ => .ok [("u1", "online"), ("u2", "offline")]
  GetChannels := .ok sampleChannels
  GetPostsSince := fun _ _ _ => .ok samplePostList

/-- A collaborator whose every post-history fetch succeeds with the post list
`danglingPostList`. -/
def danglingRemote : Remote where
  LoginByEmail := fun _ _ _ => .ok userAlice
  GetProfiles := fun _ => .ok [("u1", userAlice), ("u2", userBob)]
  GetStatuses := fun _ => .ok [("u1", "online"), ("u2", "offline")]
  GetChannels := .ok sampleChannels
  GetPostsSince := fun _ _ _ => .ok danglingPostList

/-- The profiles of `alice` and `bob`. -/
def sampleUsers : List (String × User) :=
  [("u1", userAlice), ("u2", userBob)]

/-- The statuses: `alice` is online, `bob` is offline. -/
def sampleStatuses : List (String × String) :=
  [("u1", "online"), ("u2", "offline")]

/-- Statuses that start with an id that has no profile. -/
def ghostFirstStatuses : List (String × String) :=
  [("ghost", "online"), ("u1", "online")]

/-- Statuses that end with an id that has no profile. -/
def ghostLastStatuses : List (String × String) :=
  [("u1", "online"), ("ghost", "online")]

/-- Flag sets that accept no argument, or `-name <value>` for `ExportChannel`,
and end the process with status 2 on anything else. -/
def sampleFlags : FlagSets where
  listUsers := fun arguments =>
    match arguments with
    | [] => .ok (false, false)
    | _ => .error 2
  exportChannel := fun arguments =>
    match arguments with
    | [] => .ok ""
    | ["-name", value] => .ok value
    | _ => .error 2

/-- An environment with the four configuration values and the debug switch. -/
def sampleEnv : String → String :=
  fun name =>
    if name = "MMEP" then "http://localhost:8065"
    else if name = "MMTEAM" then "team"
    else if name = "MMMAIL" then "alice@example.com"
    else if name = "MMPASS" then "secret"
    else if name = "MMDEBUG" then "TRUE"
    else ""

/-! ## Basic facts about `Run` -/

section RunLemmas

variable {α β : Type}

@[simp] theorem bind_eq_andThen (m : Run α) (f : α → Run β) : m >>= f = m.andThen f := rfl

@[simp] theorem pure_eq_ret (a : α) : (pure a : Run α) = Run.ret a := rfl

@[simp] theorem ret_andThen (a : α) (f : α → Run β) : (Run.ret a).andThen f = f a := by
  simp [Run.ret, Run.andThen]

@[simp] theorem emit_andThen (e : Event) (f : Unit → Run β) :
    (emit e).andThen f = ⟨e :: (f ()).trace, (f ()).result⟩ := by
  simp [Run.emit, Run.andThen]

@[simp] theorem stop_andThen (s : Stop) (f : α → Run β) :
    (stop s : Run α).andThen f = stop s := by
  simp [Run.stop, Run.andThen]

@[simp] theorem mk_andThen_ok (t : List Event) (a : α) (f : α → Run β) :
    (Run.mk t (.ok a)).andThen f = ⟨t ++ (f a).trace, (f a).result⟩ := rfl

@[simp] theorem mk_andThen_error (t : List Event) (s : Stop) (f : α → Run β) :
    (Run.mk t (.error s : Except Stop α)).andThen f = ⟨t, .error s⟩ := rfl

theorem mk_nil_andThen_ok (a : α) (f : α → Run β) :
    (Run.mk [] (.ok a)).andThen f = f a := rfl

@[simp] theorem PrintVar_false (v : String) : PrintVar false v = Run.ret () := rfl

@[simp] theorem PrintVar_true (v : String) : PrintVar true v = emit (.ppDump v) := rfl

@[simp] theorem PrintSep_false (str : String) : PrintSep false str = Run.ret () := rfl

end RunLemmas

/-! ## Configuration check -/

/-- `CheckMMInfo` as a case distinction on the first missing value. -/
theorem CheckMMInfo_eq (info : MMInfo) :
    CheckMMInfo info =
      match firstMissing info with
      | none => ⟨[], .ok ()⟩
      | some key => ⟨[.err ("Environment variable is not set: " ++ key)], .error (.exit 1)⟩ := by
  obtain ⟨ep, team, mail, pass⟩ := info
  simp only [CheckMMInfo, firstMissing, List.find?]
  by_cases h1 : ep = ""
  · subst h1; simp [Run.stop]
  · have h1' : ¬ "" = ep := fun h => h1 h.symm
    by_cases h2 : team = ""
    · subst h2; simp [h1, h1', Run.stop]
    · have h2' : ¬ "" = team := fun h => h2 h.symm
      by_cases h3 : mail = ""
      · subst h3; simp [h1, h1', h2, h2', Run.stop]
      · have h3' : ¬ "" = mail := fun h => h3 h.symm
        by_cases h4 : pass = ""
        · subst h4; simp [h1, h1', h2, h2', h3, h3', Run.stop]
        · have h4' : ¬ "" = pass := fun h => h4 h.symm
          simp [h1, h1', h2, h2', h3, h3', h4, h4', Run.ret]

/-- The configuration `GetMMInfo` builds from the environment. -/
theorem GetMMInfo_eq (env : String → String) :
    GetMMInfo env =
      ⟨[.getenv "MMEP", .getenv "MMTEAM", .getenv "MMMAIL", .getenv "MMPASS"],
        .ok ⟨env "MMEP", env "MMTEAM", env "MMMAIL", env "MMPASS"⟩⟩ := by
  simp [GetMMInfo, Run.ret]

theorem firstMissing_eq_none (info : MMInfo) :
    firstMissing info = none ↔
      info.ep ≠ "" ∧ info.team ≠ "" ∧ info.mail ≠ "" ∧ info.pass ≠ "" := by
  obtain ⟨ep, team, mail, pass⟩ := info
  simp [firstMissing, List.find?_eq_none]

/-- C1: `CheckMMInfo` returns silently (no event, normal return) exactly when
all four configuration values are non-empty; otherwise it writes
`Environment variable is not set: <name>` to standard error, where `<name>` is
the variable of the first empty value in the order `MMEP`, `MMTEAM`, `MMMAIL`,
`MMPASS`, and ends the process with status 1.  In `GetMMClient` an empty value
ends the run right after the four reads of the environment (and the debug dump
of the configuration): the client is not created and no login or other remote
call is made. -/
theorem CheckMMInfo_reports_first_missing (info : MMInfo) (env : String → String) (R : Remote) :
    (CheckMMInfo info = ⟨[], .ok ()⟩ ↔
      info.ep ≠ "" ∧ info.team ≠ "" ∧ info.mail ≠ "" ∧ info.pass ≠ "") ∧
    (∀ key, firstMissing info = some key →
      CheckMMInfo info =
        ⟨[.err ("Environment variable is not set: " ++ key)], .error (.exit 1)⟩ ∧
      (CheckMMInfo info).exitStatus = 1) ∧
    (∀ key, firstMissing ⟨env "MMEP", env "MMTEAM", env "MMMAIL", env "MMPASS"⟩ = some key →
      GetMMClient env R =
        ⟨[.getenv "MMEP", .getenv "MMTEAM", .getenv "MMMAIL", .getenv "MMPASS"] ++
          (if debug env then [.ppDump "mminfo"] else []) ++
          [.err ("Environment variable is not set: " ++ key)], .error (.exit 1)⟩ ∧
      (GetMMClient env R).calls = [] ∧
      (GetMMClient env R).exitStatus = 1) := by
  refine ⟨?_, ?_, ?_⟩
  · rw [← firstMissing_eq_none, CheckMMInfo_eq]
    cases h : firstMissing info <;> simp
  · intro key h
    rw [CheckMMInfo_eq, h]
    simp [Run.exitStatus]
  · intro key h
    have hc := CheckMMInfo_eq ⟨env "MMEP", env "MMTEAM", env "MMMAIL", env "MMPASS"⟩
    rw [h] at hc
    have hg : GetMMClient env R =
        ⟨[.getenv "MMEP", .getenv "MMTEAM", .getenv "MMMAIL", .getenv "MMPASS"] ++
          (if debug env then [.ppDump "mminfo"] else []) ++
          [.err ("Environment variable is not set: " ++ key)], .error (.exit 1)⟩ := by
      simp only [GetMMClient, GetMMInfo_eq, bind_eq_andThen, mk_andThen_ok]
      cases debug env <;> simp [hc, Run.emit, Run.ret]
    rw [hg]
    refine ⟨rfl, ?_, ?_⟩
    · cases debug env <;> simp [Run.calls]
    · simp [Run.exitStatus]

/-- C1 at a concrete input: with only `MMEP` set, `MMTEAM` is reported and the
run ends with status 1 before any request. -/
theorem CheckMMInfo_reports_first_missing_witness :
    GetMMClient sampleEnvNoTeam rejectingRemote =
        ⟨[.getenv "MMEP", .getenv "MMTEAM", .getenv "MMMAIL", .getenv "MMPASS"] ++
          (if debug sampleEnvNoTeam then [.ppDump "mminfo"] else []) ++
          [.err ("Environment variable is not set: " ++ "MMTEAM")], .error (.exit 1)⟩ ∧
      (GetMMClient sampleEnvNoTeam rejectingRemote).calls = [] ∧
      (GetMMClient sampleEnvNoTeam rejectingRemote).exitStatus = 1 :=
  (CheckMMInfo_reports_first_missing ⟨"", "", "", ""⟩ sampleEnvNoTeam rejectingRemote).2.2
    "MMTEAM" (by decide)

/-! ## The tracer -/

theorem join_replicate_eq (k : Nat) :
    String.join (List.replicate k "=") = String.mk (List.replicate k '=') := by
  rw [String.join_eq]
  congr 1
  induction k with
  | zero => rfl
  | succ k ih => simp [List.replicate_succ, ih]

theorem utf8ByteSize_append_eq (a b : String) :
    (a ++ b).utf8ByteSize = a.utf8ByteSize + b.utf8ByteSize := by
  cases a; cases b; simp [String.utf8ByteSize, String.append]

theorem utf8ByteSize_replicate_eq (k : Nat) :
    (String.mk (List.replicate k '=')).utf8ByteSize = k := by
  rw [String.utf8ByteSize_mk]
  induction k with
  | zero => rfl
  | succ k ih => simp [List.replicate_succ, ih]; rfl

theorem Repeat_natCast (k : Nat) :
    Repeat "=" (k : Int) = .ok (String.mk (List.replicate k '=')) := by
  have h : ¬ ((k : Int) < 0) := by omega
  simp [Repeat, h, join_replicate_eq]

theorem Repeat_neg (s : String) (count : Int) (h : count < 0) :
    Repeat s count = .error "strings: negative Repeat count" := by
  simp [Repeat, h]

/-- With the switch on and a title of at most 78 bytes, `PrintSep` writes the
banner and returns. -/
theorem PrintSep_true_of_le (title : String) (h : title.utf8ByteSize ≤ 78) :
    PrintSep true title = ⟨[.err (bannerLine title)], .ok ()⟩ := by
  have hn : ((80 : Int) - (title.utf8ByteSize : Int) - (title.utf8ByteSize : Int) % 2 - 2).tdiv 2
      = (((80 - title.utf8ByteSize - title.utf8ByteSize % 2 - 2) / 2 : Nat) : Int) := by
    rw [Int.tdiv_eq_ediv (by omega) (by omega)]
    omega
  have he : ((title.utf8ByteSize : Int) % 2) = ((title.utf8ByteSize % 2 : Nat) : Int) := by
    omega
  simp only [PrintSep, if_true, hn]
  rw [he, ← Int.natCast_add, Repeat_natCast, Repeat_natCast]
  simp [Run.ofExcept, Run.emit, bannerLine]

/-- With the switch on and a title of more than 78 bytes, `PrintSep` panics in
`strings.Repeat` before it writes anything. -/
theorem PrintSep_true_of_gt (title : String) (h : 78 < title.utf8ByteSize) :
    PrintSep true title = ⟨[], .error (.panic "strings: negative Repeat count")⟩ := by
  have hn : ((80 : Int) - (title.utf8ByteSize : Int) - (title.utf8ByteSize : Int) % 2 - 2).tdiv 2
      < 0 := by
    have h2 : ((80 : Int) - (title.utf8ByteSize : Int) - (title.utf8ByteSize : Int) % 2 - 2)
        = -((title.utf8ByteSize : Int) + (title.utf8ByteSize : Int) % 2 - 78) := by ring
    rw [h2, Int.neg_tdiv, Int.tdiv_eq_ediv (by omega) (by omega)]
    omega
  simp only [PrintSep, if_true]
  rw [Repeat_neg _ _ hn]
  simp [Run.ofExcept]

/-- A banner that fits returns, after at most one line on standard error. -/
theorem PrintSep_of_fits {d : Bool} {title : String} (h : sepFits d title) :
    PrintSep d title = ⟨if d then [.err (bannerLine title)] else [], .ok ()⟩ := by
  cases d with
  | false => rfl
  | true =>
    rcases h with h | h
    · exact absurd h (by decide)
    · simpa using PrintSep_true_of_le title h

/-- Whatever the switch and the title, `PrintSep` writes nothing to standard
output, makes no request and reads no environment variable. -/
theorem PrintSep_silent (d : Bool) (title : String) :
    (PrintSep d title).stdout = [] ∧ (PrintSep d title).calls = [] ∧
      (PrintSep d title).getenvs = [] := by
  cases d with
  | false => exact ⟨rfl, rfl, rfl⟩
  | true =>
    by_cases h : title.utf8ByteSize ≤ 78
    · rw [PrintSep_true_of_le title h]; exact ⟨rfl, rfl, rfl⟩
    · rw [PrintSep_true_of_gt title (by omega)]; exact ⟨rfl, rfl, rfl⟩

/-- C9: with the switch on and a title of at most 78 bytes, `PrintSep` performs
exactly one write, to standard error, of the line made of `n` characters `=`,
a space, the title, a space and `n + e` characters `=`, where
`e = len(title) mod 2` and `n = (80 - len(title) - e - 2) / 2`; the line is 80
bytes wide, `2 n + e + len(title) + 2 = 80`, for both parities. -/
theorem PrintSep_banner_width (title : String) (h : title.utf8ByteSize ≤ 78) :
    PrintSep true title = ⟨[.err (bannerLine title)], .ok ()⟩ ∧
    bannerLine title =
      String.mk (List.replicate
          ((80 - title.utf8ByteSize - title.utf8ByteSize % 2 - 2) / 2) '=') ++ " " ++ title ++
        " " ++ String.mk (List.replicate
          ((80 - title.utf8ByteSize - title.utf8ByteSize % 2 - 2) / 2
            + title.utf8ByteSize % 2) '=') ∧
    (bannerLine title).utf8ByteSize = 80 ∧
    2 * ((80 - title.utf8ByteSize - title.utf8ByteSize % 2 - 2) / 2)
      + title.utf8ByteSize % 2 + title.utf8ByteSize + 2 = 80 := by
  refine ⟨PrintSep_true_of_le title h, rfl, ?_, by omega⟩
  simp only [bannerLine, utf8ByteSize_append_eq, utf8ByteSize_replicate_eq]
  have h1 : " ".utf8ByteSize = 1 := by decide
  rw [h1]
  omega

/-- C9 at the title `login` (5 bytes): 36 fill characters on the left, 37 on
the right. -/
theorem PrintSep_banner_width_witness :
    PrintSep true "login" = ⟨[.err (bannerLine "login")], .ok ()⟩ ∧
    bannerLine "login" =
      String.mk (List.replicate ((80 - "login".utf8ByteSize - "login".utf8ByteSize % 2 - 2) / 2)
          '=') ++ " " ++ "login" ++
        " " ++ String.mk (List.replicate
          ((80 - "login".utf8ByteSize - "login".utf8ByteSize % 2 - 2) / 2
            + "login".utf8ByteSize % 2) '=') ∧
    (bannerLine "login").utf8ByteSize = 80 ∧
    2 * ((80 - "login".utf8ByteSize - "login".utf8ByteSize % 2 - 2) / 2)
      + "login".utf8ByteSize % 2 + "login".utf8ByteSize + 2 = 80 :=
  PrintSep_banner_width "login" (by decide)

/-- The banner of `login`, written out. -/
theorem bannerLine_login :
    bannerLine "login" =
      "==================================== login =====================================" := by
  decide

/-- C10, evaluated at a title of 79 bytes with the switch on: `PrintSep` does
not return; `strings.Repeat` is called with the count `-1` and panics, so the
process aborts before anything is written. -/
theorem PrintSep_long_title_panics :
    longTitle.utf8ByteSize = 79 ∧
    PrintSep true longTitle = ⟨[], .error (.panic "strings: negative Repeat count")⟩ ∧
    (PrintSep true longTitle).exitStatus = 2 := by
  have h : longTitle.utf8ByteSize = 79 := by decide
  refine ⟨h, PrintSep_true_of_gt longTitle (by omega), ?_⟩
  rw [PrintSep_true_of_gt longTitle (by omega)]
  rfl

/-! ## Projections of a sequence -/

section Projections

variable {α β : Type}

theorem result_andThen (m : Run α) (f : α → Run β) :
    (m.andThen f).result =
      match m.result with
      | .ok a => (f a).result
      | .error s => .error s := by
  unfold Run.andThen; cases m.result <;> rfl

theorem stdout_andThen (m : Run α) (f : α → Run β) :
    (m.andThen f).stdout = m.stdout ++
      match m.result with
      | .ok a => (f a).stdout
      | .error _ => [] := by
  unfold Run.andThen; cases m.result <;> simp [Run.stdout]

theorem calls_andThen (m : Run α) (f : α → Run β) :
    (m.andThen f).calls = m.calls ++
      match m.result with
      | .ok a => (f a).calls
      | .error _ => [] := by
  unfold Run.andThen; cases m.result <;> simp [Run.calls]

/-- A banner that fits is invisible to the three projections and returns. -/
theorem PrintSep_andThen_of_fits {d : Bool} {title : String} (h : sepFits d title)
    (f : Unit → Run β) :
    ((PrintSep d title).andThen f).result = (f ()).result ∧
    ((PrintSep d title).andThen f).stdout = (f ()).stdout ∧
    ((PrintSep d title).andThen f).calls = (f ()).calls := by
  rw [PrintSep_of_fits h]
  cases d <;> simp [Run.stdout, Run.calls]

/-- A debug dump is invisible to the three projections and returns. -/
theorem PrintVar_andThen (d : Bool) (v : String) (f : Unit → Run β) :
    ((PrintVar d v).andThen f).result = (f ()).result ∧
    ((PrintVar d v).andThen f).stdout = (f ()).stdout ∧
    ((PrintVar d v).andThen f).calls = (f ()).calls := by
  cases d <;> simp [Run.stdout, Run.calls]

/-- A request is visible in `calls` only. -/
theorem emit_call_andThen (c : Call) (f : Unit → Run β) :
    ((emit (.call c)).andThen f).result = (f ()).result ∧
    ((emit (.call c)).andThen f).stdout = (f ()).stdout ∧
    ((emit (.call c)).andThen f).calls = c :: (f ()).calls := by
  simp [Run.stdout, Run.calls]

/-- A line on standard output is visible in `stdout` only. -/
theorem emit_out_andThen (o : Output) (f : Unit → Run β) :
    ((emit (.out o)).andThen f).result = (f ()).result ∧
    ((emit (.out o)).andThen f).stdout = o :: (f ()).stdout ∧
    ((emit (.out o)).andThen f).calls = (f ()).calls := by
  simp [Run.stdout, Run.calls]

end Projections

/-! ## Printing the posts of a channel -/

theorem postTitlesFit_cons {d : Bool} {i : Nat} {id : String} {rest : List String}
    (h : postTitlesFit d i (id :: rest)) :
    sepFits d (postTitle i id) ∧ postTitlesFit d (i + 1) rest := by
  constructor
  · exact h (i, id) (by simp [List.enumFrom])
  · intro p hp
    exact h p (by simp [List.enumFrom, hp])

/-- `PrintPosts` when no banner aborts: the lines on standard output are those
of the ids before the first id that has no entry in `posts`; the loop returns
when every id has an entry and panics on the `nil` pointer otherwise; it makes
no request. -/
theorem PrintPostsFrom_spec (d : Bool) (posts : List (String × Post)) :
    ∀ (order : List String) (i : Nat), postTitlesFit d i order →
      (PrintPostsFrom d posts i order).stdout = postLines posts order ∧
      (PrintPostsFrom d posts i order).calls = [] ∧
      (PrintPostsFrom d posts i order).result =
        if order.all (hasEntry posts) then .ok ()
        else .error (.panic "invalid memory address or nil pointer dereference") := by
  intro order
  induction order with
  | nil => intro i _; exact ⟨rfl, rfl, rfl⟩
  | cons id rest ih =>
    intro i hfit
    obtain ⟨h1, h2⟩ := postTitlesFit_cons hfit
    obtain ⟨ihs, ihc, ihr⟩ := ih (i + 1) h2
    simp only [PrintPostsFrom, bind_eq_andThen]
    obtain ⟨e1, e2, e3⟩ := PrintSep_andThen_of_fits h1
      (fun _ => (PrintPost d (goLookup posts id)).andThen fun _ =>
        PrintPostsFrom d posts (i + 1) rest)
    rw [e1, e2, e3]
    cases hl : goLookup posts id with
    | none =>
      have hp : PrintPost d none =
          ⟨if d then [.ppDump "post"] else [],
            .error (.panic "invalid memory address or nil pointer dereference")⟩ := by
        cases d <;> simp [PrintPost, Run.stop, Run.emit]
      rw [hp]
      cases d <;> simp [Run.stdout, Run.calls, postLines, hasEntry, hl]
    | some p =>
      have hp : PrintPost d (some p) =
          ⟨(if d then [.ppDump "post"] else []) ++ [.out (postLine p)], .ok ()⟩ := by
        cases d <;> simp [PrintPost, Run.emit, postLine]
      rw [hp]
      have hs : (Run.mk ((if d then [Event.ppDump "post"] else []) ++ [.out (postLine p)])
          (.ok () : Except Stop Unit)).stdout = [postLine p] := by
        cases d <;> simp [Run.stdout]
      have hc : (Run.mk ((if d then [Event.ppDump "post"] else []) ++ [.out (postLine p)])
          (.ok () : Except Stop Unit)).calls = [] := by
        cases d <;> simp [Run.calls]
      rw [stdout_andThen, calls_andThen, result_andThen, hs, hc]
      simp only [ihs, ihc, ihr]
      simp [postLines, hasEntry, hl]

/-! ## The export loop -/

theorem HandleError_eq {α : Type} (d : Bool) (err : AppError) :
    (HandleError d err : Run α) =
      ⟨(if d then [.ppDump "err"] else []) ++ [.errAppError err], .error (.exit 1)⟩ := by
  cases d <;> simp [HandleError, Run.stop, Run.emit]

theorem exportBannersFit_cons_default {d : Bool} {R : Remote} {i k : Nat} {c : Channel}
    {rest : List Channel} (hc : c.Name = "town-square")
    (h : exportBannersFit d R i k (c :: rest)) :
    sepFits d (channelTitle i) ∧ exportBannersFit d R (i + 1) k rest := by
  refine ⟨by simpa using h.1 0 (by simp), ?_, ?_⟩
  · intro j hj
    have := h.1 (j + 1) (by simpa using hj)
    rwa [show i + (j + 1) = i + 1 + j by omega] at this
  · intro p hp
    exact h.2 p (by simpa [nonDefault, hc] using hp)

theorem exportBannersFit_cons_other {d : Bool} {R : Remote} {i k : Nat} {c : Channel}
    {rest : List Channel} (hc : c.Name ≠ "town-square")
    (h : exportBannersFit d R i k (c :: rest)) :
    sepFits d (channelTitle i) ∧
    (∀ pl, fetchOf R (k, c) = .ok pl → postTitlesFit d 0 pl.Order) ∧
    exportBannersFit d R (i + 1) (k + 1) rest := by
  have hnd : nonDefault (c :: rest) = c :: nonDefault rest := by
    simp [nonDefault, hc]
  refine ⟨by simpa using h.1 0 (by simp), ?_, ?_, ?_⟩
  · intro pl hpl
    have := h.2 (k, c) (by simp [hnd, List.enumFrom])
    simpa [fetchedTitlesFit, hpl] using this
  · intro j hj
    have := h.1 (j + 1) (by simpa using hj)
    rwa [show i + (j + 1) = i + 1 + j by omega] at this
  · intro p hp
    exact h.2 p (by simp [hnd, List.enumFrom, hp])

/-- The export loop when no banner aborts: its requests, its lines on standard
output and the way it ends, in terms of the numbered non-default channels. -/
theorem exportLoop_spec (d : Bool) (R : Remote) :
    ∀ (channels : List Channel) (i k : Nat), exportBannersFit d R i k channels →
      (exportLoop d R i k channels).calls =
        (cutAfterFirst (fetchGood R) ((nonDefault channels).enumFrom k)).map requestOf ∧
      (exportLoop d R i k channels).stdout =
        (cutAfterFirst (fetchGood R) ((nonDefault channels).enumFrom k)).flatMap
          (fetchedLines R) ∧
      (exportLoop d R i k channels).result =
        loopResult R ((nonDefault channels).enumFrom k) := by
  intro channels
  induction channels with
  | nil => intro i k _; exact ⟨rfl, rfl, rfl⟩
  | cons c rest ih =>
    intro i k hfit
    by_cases hc : c.Name = "town-square"
    · obtain ⟨h1, h2⟩ := exportBannersFit_cons_default hc hfit
      obtain ⟨ihc, ihs, ihr⟩ := ih (i + 1) k h2
      have hnd : nonDefault (c :: rest) = nonDefault rest := by simp [nonDefault, hc]
      simp only [exportLoop, bind_eq_andThen, hc, if_true]
      obtain ⟨e1, e2, e3⟩ := PrintSep_andThen_of_fits h1
        (fun _ => (PrintVar d "channel").andThen fun _ => exportLoop d R (i + 1) k rest)
      obtain ⟨f1, f2, f3⟩ := PrintVar_andThen d "channel"
        (fun _ => exportLoop d R (i + 1) k rest)
      rw [e1, e2, e3, f1, f2, f3, hnd]
      exact ⟨ihc, ihs, ihr⟩
    · obtain ⟨h1, h2, h3⟩ := exportBannersFit_cons_other hc hfit
      obtain ⟨ihc, ihs, ihr⟩ := ih (i + 1) (k + 1) h3
      have hnd : nonDefault (c :: rest) = c :: nonDefault rest := by simp [nonDefault, hc]
      have hgp : sepFits d "getPosts" := Or.inr (by decide)
      simp only [exportLoop, bind_eq_andThen, hc, if_false]
      rw [(PrintSep_andThen_of_fits h1 _).1, (PrintSep_andThen_of_fits h1 _).2.1,
        (PrintSep_andThen_of_fits h1 _).2.2, (PrintVar_andThen d "channel" _).1,
        (PrintVar_andThen d "channel" _).2.1, (PrintVar_andThen d "channel" _).2.2,
        (PrintSep_andThen_of_fits hgp _).1, (PrintSep_andThen_of_fits hgp _).2.1,
        (PrintSep_andThen_of_fits hgp _).2.2, hnd]
      rw [(emit_call_andThen _ _).1, (emit_call_andThen _ _).2.1, (emit_call_andThen _ _).2.2]
      simp only [List.enumFrom_cons]
      cases hf : R.GetPostsSince k c.Id 0 with
      | error err =>
        have hbad : fetchGood R (k, c) = false := by simp [fetchGood, fetchOf, hf]
        simp only [HandleError_eq, mk_andThen_error]
        cases d <;>
          simp [Run.calls, Run.stdout, cutAfterFirst, hbad, requestOf, fetchedLines, fetchOf, hf,
            loopResult]
      | ok pl =>
        obtain ⟨p1, p2, p3⟩ := PrintPostsFrom_spec d pl.Posts pl.Order 0 (h2 pl hf)
        simp only []
        rw [(PrintVar_andThen d "res" _).1, (PrintVar_andThen d "res" _).2.1,
          (PrintVar_andThen d "res" _).2.2]
        simp only [calls_andThen, stdout_andThen, result_andThen, PrintPosts, p1, p2, p3]
        by_cases hw : wellFormed pl = true
        · have hgood : fetchGood R (k, c) = true := by simp [fetchGood, fetchOf, hf, hw]
          have hall : (pl.Order.all (hasEntry pl.Posts)) = true := hw
          simp [cutAfterFirst, hgood, requestOf, fetchedLines, fetchOf, hf,
            loopResult, hall, ihc, ihs, ihr]
        · have hbad : fetchGood R (k, c) = false := by simp [fetchGood, fetchOf, hf, hw]
          have hall : ¬ (pl.Order.all (hasEntry pl.Posts)) = true := hw
          simp [cutAfterFirst, hbad, requestOf, fetchedLines, fetchOf, hf,
            loopResult, hall]

theorem cutAfterFirst_initial {α : Type} (good : α → Bool) (l : List α) :
    cutAfterFirst good l <+: l := by
  have h : l.takeWhile good ++ (l.dropWhile good).take 1 <+:
      l.takeWhile good ++ l.dropWhile good :=
    (List.prefix_append_right_inj _).2 ( List.take_prefix 1 _)
  rwa [List.takeWhile_append_dropWhile] at h

theorem cutAfterFirst_of_all {α : Type} (good : α → Bool) (l : List α)
    (h : ∀ x ∈ l, good x = true) : cutAfterFirst good l = l := by
  have h1 : l.takeWhile good = l := List.takeWhile_eq_self_iff.2 h
  have h2 : l.dropWhile good = [] := List.dropWhile_eq_nil_iff.2 h
  simp [cutAfterFirst, h1, h2]

theorem loopResult_of_all (R : Remote) (l : List (Nat × Channel))
    (h : ∀ x ∈ l, fetchGood R x = true) : loopResult R l = .ok () := by
  have h2 : l.dropWhile (fetchGood R) = [] := List.dropWhile_eq_nil_iff.2 h
  simp [loopResult, h2]

theorem mem_nonDefault_enumFrom {channels : List Channel} {k : Nat} {p : Nat × Channel}
    (h : p ∈ (nonDefault channels).enumFrom k) :
    p.2 ∈ channels ∧ p.2.Name ≠ "town-square" := by
  have h1 : p.2 ∈ nonDefault channels := by
    obtain ⟨j, c⟩ := p
    have h2 := (List.mem_enumFrom h).2.2
    simp only at h2 ⊢
    rw [h2]
    exact List.getElem_mem _
  simpa [nonDefault] using h1

/-- With the switch off no banner is written, so none aborts. -/
theorem exportBannersFit_off (R : Remote) (i k : Nat) (channels : List Channel) :
    exportBannersFit false R i k channels :=
  ⟨fun _ _ => Or.inl rfl, fun p _ => by
    unfold fetchedTitlesFit
    split
    · exact fun _ _ => Or.inl rfl
    · trivial⟩

/-! ### Decimal titles -/

theorem digitChar_utf8Size (m : Nat) (h : m < 10) : (Nat.digitChar m).utf8Size = 1 := by
  interval_cases m <;> rfl

theorem utf8Len_toDigitsCore (f : Nat) : ∀ (n : Nat) (ds : List Char),
    String.utf8Len ds = ds.length →
    String.utf8Len (Nat.toDigitsCore 10 f n ds) = (Nat.toDigitsCore 10 f n ds).length := by
  induction f with
  | zero => intro n ds h; simpa [Nat.toDigitsCore] using h
  | succ f ih =>
    intro n ds h
    have hd : (Nat.digitChar (n % 10)).utf8Size = 1 :=
      digitChar_utf8Size _ (Nat.mod_lt _ (by decide))
    have hcons : String.utf8Len (Nat.digitChar (n % 10) :: ds)
        = (Nat.digitChar (n % 10) :: ds).length := by
      simp [h, hd]
    simp only [Nat.toDigitsCore]
    split
    · exact hcons
    · exact ih _ _ hcons

theorem utf8ByteSize_toString_le (n e : Nat) (he : 0 < e) (h : n < 10 ^ e) :
    (toString n).utf8ByteSize ≤ e := by
  have h1 : (toString n).utf8ByteSize = (Nat.repr n).length := by
    show (Nat.repr n).utf8ByteSize = _
    simp only [Nat.repr, Nat.toDigits, List.asString, String.utf8ByteSize_mk, String.length]
    exact utf8Len_toDigitsCore _ _ _ rfl
  rw [h1]
  exact Nat.repr_length n e he h

/-- For an index in the range of a Go `int`, the title `channel i` has at most
27 bytes, so its banner never aborts. -/
theorem channelTitle_fits (d : Bool) (i : Nat) (h : i < 2 ^ 63) : sepFits d (channelTitle i) := by
  refine Or.inr ?_
  have h1 : (toString i).utf8ByteSize ≤ 19 :=
    utf8ByteSize_toString_le i 19 (by decide) (lt_trans h (by norm_num))
  have h2 : "channel ".utf8ByteSize = 8 := by decide
  simp only [channelTitle, utf8ByteSize_append_eq, h2]
  omega

/-! ### Lines of a post list -/

theorem postLines_of_all (posts : List (String × Post)) (order : List String)
    (h : ∀ id ∈ order, hasEntry posts id = true) :
    postLines posts order = order.filterMap (fun id => (goLookup posts id).map postLine) ∧
    (postLines posts order).length = order.length := by
  have h1 : order.takeWhile (hasEntry posts) = order := List.takeWhile_eq_self_iff.2 h
  have h2 : postLines posts order =
      order.filterMap (fun id => (goLookup posts id).map postLine) := by
    simp [postLines, h1]
  refine ⟨h2, ?_⟩
  rw [h2]
  clear h1 h2
  induction order with
  | nil => rfl
  | cons id rest ih =>
    have hid : hasEntry posts id = true := h id (by simp)
    obtain ⟨p, hp⟩ : ∃ p, goLookup posts id = some p := by
      simpa [hasEntry, Option.isSome_iff_exists] using hid
    have ih2 := ih (fun x hx => h x (by simp [hx]))
    simp [List.filterMap_cons, hp, ih2]

theorem postLines_length_le (posts : List (String × Post)) (order : List String) :
    (postLines posts order).length ≤ (order.takeWhile (hasEntry posts)).length := by
  unfold postLines
  exact List.length_filterMap_le _ _

theorem takeWhile_length_lt {α : Type} (good : α → Bool) (l : List α)
    (h : ∃ x ∈ l, good x = false) : (l.takeWhile good).length < l.length := by
  induction l with
  | nil => obtain ⟨x, hx, _⟩ := h; simp at hx
  | cons a rest ih =>
    by_cases ha : good a = true
    · obtain ⟨x, hx, hgx⟩ := h
      have hx2 : x ∈ rest := by
        rcases List.mem_cons.1 hx with rfl | hx2
        · rw [ha] at hgx; exact absurd hgx (by decide)
        · exact hx2
      have := ih ⟨x, hx2, hgx⟩
      simp [List.takeWhile_cons, ha]
      omega
    · simp [List.takeWhile_cons, ha]

theorem postLines_length_lt (posts : List (String × Post)) (order : List String)
    (h : ∃ id ∈ order, goLookup posts id = none) :
    (postLines posts order).length < order.length := by
  have h2 : ∃ id ∈ order, hasEntry posts id = false := by
    obtain ⟨id, hid, hn⟩ := h
    exact ⟨id, hid, by simp [hasEntry, hn]⟩
  exact lt_of_le_of_lt (postLines_length_le posts order) (takeWhile_length_lt _ _ h2)

theorem not_wellFormed_of_missing (pl : PostList)
    (h : ∃ id ∈ pl.Order, goLookup pl.Posts id = none) : wellFormed pl = false := by
  obtain ⟨id, hid, hn⟩ := h
  have : ¬ (pl.Order.all (hasEntry pl.Posts) = true) := by
    intro hall
    have := List.all_eq_true.1 hall id hid
    simp [hasEntry, hn] at this
  simpa [wellFormed] using this

/-! ### Claims about `PrintPosts` and the export loop -/

/-- When no banner aborts and every id of `order` has an entry, `PrintPosts`
returns after printing one line per id, in the sequence of `order`: the instant
with `CreateAt / 1000` seconds and 0 nanoseconds. -/
theorem PrintPosts_lines_of_fit (d : Bool) (order : List String) (posts : List (String × Post))
    (hfit : postTitlesFit d 0 order) (h : ∀ id ∈ order, hasEntry posts id = true) :
    (PrintPosts d order posts).stdout =
      order.filterMap (fun id => (goLookup posts id).map postLine) ∧
    (PrintPosts d order posts).stdout.length = order.length ∧
    (PrintPosts d order posts).result = .ok () := by
  obtain ⟨p1, _, p3⟩ := PrintPostsFrom_spec d posts order 0 hfit
  obtain ⟨q1, q2⟩ := postLines_of_all posts order h
  have hall : order.all (hasEntry posts) = true := List.all_eq_true.2 h
  unfold PrintPosts
  rw [p1, p3, hall]
  exact ⟨q1, q2, rfl⟩

/-- The example of the specification: order `p2`, `p1` prints the instant at
2000 s and then the instant at 1000 s, whatever the switch. -/
theorem PrintPosts_example (d : Bool) :
    (PrintPosts d samplePostList.Order samplePostList.Posts).stdout =
      [.instant 2000 0, .instant 1000 0] := by
  cases d <;> decide

/-- C3, evaluated with the switch on at an order that holds one id of 72 bytes
which has an entry in `posts`: the title `post 0 <id>` has 79 bytes, `PrintSep`
panics in `strings.Repeat`, and `PrintPosts` stops without printing the line of
the post. -/
theorem PrintPosts_long_id_aborts :
    hasEntry [(longPostId, postP1)] longPostId = true ∧
    (postTitle 0 longPostId).utf8ByteSize = 79 ∧
    PrintPosts true [longPostId] [(longPostId, postP1)] =
      ⟨[], .error (.panic "strings: negative Repeat count")⟩ ∧
    (PrintPosts true [longPostId] [(longPostId, postP1)]).stdout.length = 0 := by
  have h : (postTitle 0 longPostId).utf8ByteSize = 79 := by decide
  have hp : PrintPosts true [longPostId] [(longPostId, postP1)] =
      ⟨[], .error (.panic "strings: negative Repeat count")⟩ := by
    simp only [PrintPosts, PrintPostsFrom, bind_eq_andThen,
      PrintSep_true_of_gt (postTitle 0 longPostId) (by omega), mk_andThen_error]
  refine ⟨by decide, h, hp, ?_⟩
  rw [hp]
  rfl

/-- C2 as stated fails: every fetch of `danglingRemote` succeeds, so the claim
expects a request for `general` and one for `random`; the post list of
`general` names an id without an entry, the run panics in `PrintPost`, and
`random` is never fetched. -/
theorem exportLoop_fetches_counterexample :
    ((nonDefault sampleChannels).enumFrom 0).all (fetchSucceeds danglingRemote) = true ∧
    (cutAfterFirst (fetchSucceeds danglingRemote) ((nonDefault sampleChannels).enumFrom 0)).map
        requestOf = [.getPostsSince "c1" 0, .getPostsSince "c2" 0] ∧
    (exportLoop false danglingRemote 0 0 sampleChannels).calls = [.getPostsSince "c1" 0] ∧
    (exportLoop false danglingRemote 0 0 sampleChannels).calls ≠
      (cutAfterFirst (fetchSucceeds danglingRemote) ((nonDefault sampleChannels).enumFrom 0)).map
        requestOf := by
  decide

/-- C2, amended: when no debug banner aborts, the requests of the export loop
are `GetPostsSince(id, 0)` for the channels whose name is not `town-square`, in
the order of the list, cut off right after the first channel whose fetch fails
or whose post list names an id that has no entry (`fetchGood` false).  The
fetched channels are an initial segment of the non-default channels of the
list, so `town-square` is never fetched and nothing is re-ordered or fetched
twice; when every channel is good, each non-default channel is fetched once
and the loop returns; when the first channel that is not good failed to fetch,
the process exits with status 1; the lines printed for the channels up to the
cut stay on standard output. -/
theorem exportLoop_fetches (d : Bool) (R : Remote) (channels : List Channel) (i k : Nat)
    (hfit : exportBannersFit d R i k channels) :
    (exportLoop d R i k channels).calls =
      (cutAfterFirst (fetchGood R) ((nonDefault channels).enumFrom k)).map requestOf ∧
    cutAfterFirst (fetchGood R) ((nonDefault channels).enumFrom k) <+:
      (nonDefault channels).enumFrom k ∧
    (∀ p ∈ (nonDefault channels).enumFrom k, p.2 ∈ channels ∧ p.2.Name ≠ "town-square") ∧
    ((∀ p ∈ (nonDefault channels).enumFrom k, fetchGood R p = true) →
      (exportLoop d R i k channels).calls = ((nonDefault channels).enumFrom k).map requestOf ∧
      (exportLoop d R i k channels).result = .ok ()) ∧
    (∀ p err, (((nonDefault channels).enumFrom k).dropWhile (fetchGood R)).head? = some p →
      fetchOf R p = .error err →
      (exportLoop d R i k channels).result = .error (.exit 1) ∧
      (exportLoop d R i k channels).exitStatus = 1) ∧
    (exportLoop d R i k channels).stdout =
      (cutAfterFirst (fetchGood R) ((nonDefault channels).enumFrom k)).flatMap (fetchedLines R) ∧
    (exportLoop d R i k channels).result = loopResult R ((nonDefault channels).enumFrom k) := by
  obtain ⟨hc, hs, hr⟩ := exportLoop_spec d R channels i k hfit
  refine ⟨hc, cutAfterFirst_initial _ _, fun p hp => mem_nonDefault_enumFrom hp, ?_, ?_, hs, hr⟩
  · intro hall
    rw [hc, hr, cutAfterFirst_of_all _ _ hall, loopResult_of_all R _ hall]
    exact ⟨rfl, rfl⟩
  · intro p err hp herr
    have : (exportLoop d R i k channels).result = .error (.exit 1) := by
      rw [hr]
      simp [loopResult, hp, herr]
    exact ⟨this, by simp [Run.exitStatus, this]⟩

/-- C2, amended, at the example of the specification with the switch on:
`town-square`, `general`, `random`. -/
theorem exportLoop_fetches_witness :
    (exportLoop true sampleRemote 0 0 sampleChannels).calls =
      (cutAfterFirst (fetchGood sampleRemote) ((nonDefault sampleChannels).enumFrom 0)).map
        requestOf :=
  (exportLoop_fetches true sampleRemote sampleChannels 0 0 (by decide)).1

/-- The example of the specification: of `town-square`, `general`, `random`
exactly `general` and `random` are fetched, in this order. -/
theorem exportLoop_example (d : Bool) :
    (exportLoop d sampleRemote 0 0 sampleChannels).calls =
      [.getPostsSince "c1" 0, .getPostsSince "c2" 0] := by
  cases d <;> decide

/-- One turn of the export loop on a non-default channel whose fetch succeeds,
when the banners of the turn fit: the request, then the lines of `PrintPosts`,
then the rest of the loop if `PrintPosts` returned. -/
theorem exportLoop_cons_fetched (d : Bool) (R : Remote) (c : Channel) (rest : List Channel)
    (i k : Nat) (pl : PostList) (hc : c.Name ≠ "town-square")
    (hf : R.GetPostsSince k c.Id 0 = .ok pl) (h1 : sepFits d (channelTitle i)) :
    (exportLoop d R i k (c :: rest)).calls = .getPostsSince c.Id 0 ::
      ((PrintPosts d pl.Order pl.Posts).andThen fun _ =>
        exportLoop d R (i + 1) (k + 1) rest).calls ∧
    (exportLoop d R i k (c :: rest)).stdout =
      ((PrintPosts d pl.Order pl.Posts).andThen fun _ =>
        exportLoop d R (i + 1) (k + 1) rest).stdout ∧
    (exportLoop d R i k (c :: rest)).result =
      ((PrintPosts d pl.Order pl.Posts).andThen fun _ =>
        exportLoop d R (i + 1) (k + 1) rest).result := by
  have hgp : sepFits d "getPosts" := Or.inr (by decide)
  simp only [exportLoop, bind_eq_andThen, hc, if_false]
  rw [(PrintSep_andThen_of_fits h1 _).1, (PrintSep_andThen_of_fits h1 _).2.1,
    (PrintSep_andThen_of_fits h1 _).2.2, (PrintVar_andThen d "channel" _).1,
    (PrintVar_andThen d "channel" _).2.1, (PrintVar_andThen d "channel" _).2.2,
    (PrintSep_andThen_of_fits hgp _).1, (PrintSep_andThen_of_fits hgp _).2.1,
    (PrintSep_andThen_of_fits hgp _).2.2]
  rw [(emit_call_andThen _ _).1, (emit_call_andThen _ _).2.1, (emit_call_andThen _ _).2.2]
  rw [hf]
  simp only []
  rw [(PrintVar_andThen d "res" _).1, (PrintVar_andThen d "res" _).2.1,
    (PrintVar_andThen d "res" _).2.2]
  exact ⟨rfl, rfl, rfl⟩

/-- C6 as stated fails: the post list of `general` names `p1`, which has no
entry; the export does not end through `HandleError` with status 1, it panics
in `PrintPost` (status 2) right after the request. -/
theorem missing_entry_counterexample :
    "p1" ∈ danglingPostList.Order ∧ goLookup danglingPostList.Posts "p1" = none ∧
    exportLoop false danglingRemote 0 0 [⟨"c1", "general"⟩] =
      ⟨[.call (.getPostsSince "c1" 0)],
        .error (.panic "invalid memory address or nil pointer dereference")⟩ ∧
    (exportLoop false danglingRemote 0 0 [⟨"c1", "general"⟩]).exitStatus = 2 ∧
    (exportLoop false danglingRemote 0 0 [⟨"c1", "general"⟩]).exitStatus ≠ 1 :=
  ⟨by decide, by decide, rfl, by decide, by decide⟩

/-- C6, amended: when a fetched post list names in `order` an id that has no
entry in `posts` (and no debug banner of the turn aborts), the exporter prints
no line for the missing post and does not end through `HandleError` with
status 1; there is no check of the post list: `PrintPosts` prints the lines of
the ids before the first missing one, then `PrintPost` dereferences the `nil`
pointer and the process stops with a run-time panic (status 2), after the one
request for this channel. -/
theorem missing_entry_panics (d : Bool) (R : Remote) (c : Channel) (rest : List Channel)
    (i k : Nat) (pl : PostList) (hc : c.Name ≠ "town-square")
    (hf : R.GetPostsSince k c.Id 0 = .ok pl)
    (hmiss : ∃ id ∈ pl.Order, goLookup pl.Posts id = none)
    (h1 : sepFits d (channelTitle i)) (h2 : postTitlesFit d 0 pl.Order) :
    (PrintPosts d pl.Order pl.Posts).result =
      .error (.panic "invalid memory address or nil pointer dereference") ∧
    (PrintPosts d pl.Order pl.Posts).stdout = postLines pl.Posts pl.Order ∧
    (postLines pl.Posts pl.Order).length < pl.Order.length ∧
    (exportLoop d R i k (c :: rest)).result =
      .error (.panic "invalid memory address or nil pointer dereference") ∧
    (exportLoop d R i k (c :: rest)).exitStatus = 2 ∧
    (exportLoop d R i k (c :: rest)).calls = [.getPostsSince c.Id 0] ∧
    (exportLoop d R i k (c :: rest)).stdout = postLines pl.Posts pl.Order := by
  obtain ⟨p1, p2, p3⟩ := PrintPostsFrom_spec d pl.Posts pl.Order 0 h2
  have hw : pl.Order.all (hasEntry pl.Posts) = false := not_wellFormed_of_missing pl hmiss
  have hres : (PrintPosts d pl.Order pl.Posts).result =
      .error (.panic "invalid memory address or nil pointer dereference") := by
    unfold PrintPosts
    rw [p3, hw]
    rfl
  obtain ⟨e1, e2, e3⟩ := exportLoop_cons_fetched d R c rest i k pl hc hf h1
  have hr : (exportLoop d R i k (c :: rest)).result =
      .error (.panic "invalid memory address or nil pointer dereference") := by
    rw [e3, result_andThen, hres]
  refine ⟨hres, p1, postLines_length_lt _ _ hmiss, hr, ?_, ?_, ?_⟩
  · simp [Run.exitStatus, hr]
  · rw [e1, calls_andThen, hres]
    simp [PrintPosts, p2]
  · rw [e2, stdout_andThen, hres]
    simp [PrintPosts, p1]

/-- C6, amended, at the post list `danglingPostList` with the switch on. -/
theorem missing_entry_panics_witness :
    (exportLoop true danglingRemote 0 0 [⟨"c1", "general"⟩, ⟨"c2", "random"⟩]).result =
      .error (.panic "invalid memory address or nil pointer dereference") ∧
    (exportLoop true danglingRemote 0 0 [⟨"c1", "general"⟩, ⟨"c2", "random"⟩]).calls =
      [.getPostsSince "c1" 0] :=
  have h := missing_entry_panics true danglingRemote ⟨"c1", "general"⟩ [⟨"c2", "random"⟩] 0 0
    danglingPostList (by decide) rfl ⟨"p1", by decide, by decide⟩ (by decide) (by decide)
  ⟨h.2.2.2.1, h.2.2.2.2.2.1⟩

/-! ## Rendering the statuses -/

theorem usernameOf_eq (users : List (String × User)) (userid : String) :
    usernameOf users userid =
      match goLookup users userid with
      | none => ⟨[], .error (.panic "invalid memory address or nil pointer dereference")⟩
      | some u => ⟨[], .ok u.Username⟩ := by
  unfold usernameOf
  cases goLookup users userid <;> rfl

/-- The loop of the `online` and `offline` cases: it prints the names of the
selected entries up to the first selected id without a profile, where it
panics; entries with another status are passed over. -/
theorem printByStatus_spec (users : List (String × User)) (want : String) :
    ∀ statuses : List (String × String),
      (printByStatus users want statuses).stdout =
        ((statuses.filter fun p => decide (p.2 = want)).takeWhile (hasProfile users)).filterMap
          (nameLine users) ∧
      (printByStatus users want statuses).calls = [] ∧
      (printByStatus users want statuses).result =
        if (statuses.filter fun p => decide (p.2 = want)).all (hasProfile users) then .ok ()
        else .error (.panic "invalid memory address or nil pointer dereference") := by
  intro statuses
  induction statuses with
  | nil => exact ⟨rfl, rfl, rfl⟩
  | cons p rest ih =>
    obtain ⟨userid, status⟩ := p
    obtain ⟨ih1, ih2, ih3⟩ := ih
    by_cases hs : status = want
    · simp only [printByStatus, bind_eq_andThen, hs, if_true, usernameOf_eq]
      cases hl : goLookup users userid with
      | none =>
        have hp : hasProfile users (userid, want) = false := by simp [hasProfile, hasEntry, hl]
        simp [Run.stdout, Run.calls, hp, List.filter_cons]
      | some u =>
        simp only [mk_nil_andThen_ok]
        rw [(emit_out_andThen _ _).1, (emit_out_andThen _ _).2.1, (emit_out_andThen _ _).2.2]
        have hp : hasProfile users (userid, want) = true := by simp [hasProfile, hasEntry, hl]
        have hfl : (List.filter (fun p => decide (p.2 = want)) ((userid, want) :: rest)) =
            (userid, want) :: List.filter (fun p => decide (p.2 = want)) rest := by
          simp [List.filter_cons]
        rw [hfl, ih1, ih2, ih3]
        simp only [List.all_cons, List.takeWhile_cons, hp, Bool.true_and, if_true,
          List.filterMap_cons, nameLine, hl, Option.map_some']
        exact ⟨trivial, trivial, trivial⟩
    · simp only [printByStatus, bind_eq_andThen, hs, if_false, pure_eq_ret, ret_andThen]
      have hfl : (List.filter (fun p => decide (p.2 = want)) ((userid, status) :: rest)) =
          List.filter (fun p => decide (p.2 = want)) rest := by
        simp [List.filter_cons, hs]
      rw [hfl]
      exact ⟨ih1, ih2, ih3⟩

/-- The loop of the `default` case: it prints `username status` for the
entries up to the first id without a profile, where it panics. -/
theorem printAll_spec (users : List (String × User)) :
    ∀ statuses : List (String × String),
      (printAll users statuses).stdout =
        (statuses.takeWhile (hasProfile users)).filterMap (nameStatusLine users) ∧
      (printAll users statuses).calls = [] ∧
      (printAll users statuses).result =
        if statuses.all (hasProfile users) then .ok ()
        else .error (.panic "invalid memory address or nil pointer dereference") := by
  intro statuses
  induction statuses with
  | nil => exact ⟨rfl, rfl, rfl⟩
  | cons p rest ih =>
    obtain ⟨userid, status⟩ := p
    obtain ⟨ih1, ih2, ih3⟩ := ih
    simp only [printAll, bind_eq_andThen, usernameOf_eq]
    cases hl : goLookup users userid with
    | none =>
      have hp : hasProfile users (userid, status) = false := by simp [hasProfile, hasEntry, hl]
      simp [Run.stdout, Run.calls, hp]
    | some u =>
      simp only [mk_nil_andThen_ok]
      rw [(emit_out_andThen _ _).1, (emit_out_andThen _ _).2.1, (emit_out_andThen _ _).2.2]
      have hp : hasProfile users (userid, status) = true := by simp [hasProfile, hasEntry, hl]
      rw [ih1, ih2, ih3]
      simp only [List.all_cons, List.takeWhile_cons, hp, Bool.true_and, if_true,
        List.filterMap_cons, nameStatusLine, hl, Option.map_some']
      exact ⟨trivial, trivial, trivial⟩

/-- The rendering of `ListUsers` in every mode and for every pair of maps. -/
theorem renderStatuses_spec (d onlineFlag offlineFlag : Bool) (users : List (String × User))
    (statuses : List (String × String)) :
    (renderStatuses d onlineFlag offlineFlag users statuses).stdout =
      ((selectedBy onlineFlag offlineFlag statuses).takeWhile (hasProfile users)).filterMap
        (lineFor onlineFlag offlineFlag users) ∧
    (renderStatuses d onlineFlag offlineFlag users statuses).calls = [] ∧
    (renderStatuses d onlineFlag offlineFlag users statuses).result =
      if (selectedBy onlineFlag offlineFlag statuses).all (hasProfile users) then .ok ()
      else .error (.panic "invalid memory address or nil pointer dereference") := by
  have f1 : sepFits d "Printing Online Users" := Or.inr (by decide)
  have f2 : sepFits d "Printing Offline Users" := Or.inr (by decide)
  have f3 : sepFits d "Printing All Users with status" := Or.inr (by decide)
  cases onlineFlag with
  | true =>
    simp only [renderStatuses, if_true, bind_eq_andThen]
    rw [(PrintSep_andThen_of_fits f1 _).1, (PrintSep_andThen_of_fits f1 _).2.1,
      (PrintSep_andThen_of_fits f1 _).2.2]
    simpa [selectedBy, lineFor] using printByStatus_spec users "online" statuses
  | false =>
    cases offlineFlag with
    | true =>
      simp only [renderStatuses, if_true, bind_eq_andThen, Bool.false_eq_true, if_false]
      rw [(PrintSep_andThen_of_fits f2 _).1, (PrintSep_andThen_of_fits f2 _).2.1,
        (PrintSep_andThen_of_fits f2 _).2.2]
      simpa [selectedBy, lineFor] using printByStatus_spec users "offline" statuses
    | false =>
      simp only [renderStatuses, bind_eq_andThen, Bool.false_eq_true, if_false]
      rw [(PrintSep_andThen_of_fits f3 _).1, (PrintSep_andThen_of_fits f3 _).2.1,
        (PrintSep_andThen_of_fits f3 _).2.2]
      simpa [selectedBy, lineFor] using printAll_spec users statuses

theorem selectedBy_subset (onlineFlag offlineFlag : Bool) (statuses : List (String × String)) :
    ∀ p ∈ selectedBy onlineFlag offlineFlag statuses, p ∈ statuses := by
  intro p hp
  unfold selectedBy at hp
  split at hp
  · exact (List.mem_filter.1 hp).1
  · split at hp
    · exact (List.mem_filter.1 hp).1
    · exact hp

theorem lineFor_isSome (onlineFlag offlineFlag : Bool) (users : List (String × User))
    (p : String × String) (h : hasProfile users p = true) :
    (lineFor onlineFlag offlineFlag users p).isSome = true := by
  obtain ⟨u, hu⟩ : ∃ u, goLookup users p.1 = some u := by
    simpa [hasProfile, hasEntry, Option.isSome_iff_exists] using h
  unfold lineFor
  split <;> simp [nameLine, nameStatusLine, hu]

theorem lineFor_online (offlineFlag : Bool) (users : List (String × User)) :
    lineFor true offlineFlag users = nameLine users := by
  funext p; simp [lineFor]

theorem lineFor_offline (users : List (String × User)) :
    lineFor false true users = nameLine users := by
  funext p; simp [lineFor]

theorem lineFor_all (users : List (String × User)) :
    lineFor false false users = nameStatusLine users := by
  funext p; simp [lineFor]

/-- The rendering when every selected entry has a profile: one line per
selected entry, in the order of the iteration, and a normal return. -/
theorem renderStatuses_of_profiles (d onlineFlag offlineFlag : Bool)
    (users : List (String × User)) (statuses : List (String × String))
    (h : ∀ p ∈ selectedBy onlineFlag offlineFlag statuses, hasProfile users p = true) :
    (renderStatuses d onlineFlag offlineFlag users statuses).stdout =
      (selectedBy onlineFlag offlineFlag statuses).filterMap
        (lineFor onlineFlag offlineFlag users) ∧
    (renderStatuses d onlineFlag offlineFlag users statuses).stdout.length =
      (selectedBy onlineFlag offlineFlag statuses).length ∧
    (renderStatuses d onlineFlag offlineFlag users statuses).result = .ok () := by
  obtain ⟨r1, _, r3⟩ := renderStatuses_spec d onlineFlag offlineFlag users statuses
  have h1 : (selectedBy onlineFlag offlineFlag statuses).takeWhile (hasProfile users) =
      selectedBy onlineFlag offlineFlag statuses := List.takeWhile_eq_self_iff.2 h
  have h2 : (selectedBy onlineFlag offlineFlag statuses).all (hasProfile users) = true :=
    List.all_eq_true.2 h
  rw [h1] at r1
  rw [h2] at r3
  refine ⟨r1, ?_, r3⟩
  rw [r1]
  exact List.filterMap_length_eq_length.2 fun p hp => lineFor_isSome _ _ _ _ (h p hp)

/-- C4: when every id of `statuses` has a profile, the lines `ListUsers`
prints are, as a multiset: with `online` set (whatever `offline` is) the user
names of the entries whose status is `online`; with `online` unset and
`offline` set the user names of the entries whose status is `offline`; with
neither set the line `username status` of every entry.  In each mode there is
exactly one line per selected entry and the rendering returns. -/
theorem renderStatuses_multiset (d : Bool) (users : List (String × User))
    (statuses : List (String × String)) (h : ∀ p ∈ statuses, hasProfile users p = true) :
    (∀ offlineFlag : Bool,
      ((renderStatuses d true offlineFlag users statuses).stdout : Multiset Output) =
        Multiset.filterMap (nameLine users)
          (Multiset.filter (fun p => p.2 = "online") (statuses : Multiset (String × String))) ∧
      (renderStatuses d true offlineFlag users statuses).stdout.length =
        (statuses.filter fun p => decide (p.2 = "online")).length) ∧
    (((renderStatuses d false true users statuses).stdout : Multiset Output) =
        Multiset.filterMap (nameLine users)
          (Multiset.filter (fun p => p.2 = "offline") (statuses : Multiset (String × String))) ∧
      (renderStatuses d false true users statuses).stdout.length =
        (statuses.filter fun p => decide (p.2 = "offline")).length) ∧
    (((renderStatuses d false false users statuses).stdout : Multiset Output) =
        Multiset.filterMap (nameStatusLine users) (statuses : Multiset (String × String)) ∧
      (renderStatuses d false false users statuses).stdout.length = statuses.length) ∧
    (∀ onlineFlag offlineFlag : Bool,
      (renderStatuses d onlineFlag offlineFlag users statuses).result = .ok ()) := by
  have hsel : ∀ a b : Bool, ∀ p ∈ selectedBy a b statuses, hasProfile users p = true :=
    fun a b p hp => h p (selectedBy_subset a b statuses p hp)
  refine ⟨fun offlineFlag => ?_, ?_, ?_, fun a b => (renderStatuses_of_profiles d a b users
    statuses (hsel a b)).2.2⟩
  · obtain ⟨r1, r2, _⟩ := renderStatuses_of_profiles d true offlineFlag users statuses
      (hsel true offlineFlag)
    refine ⟨?_, ?_⟩
    · rw [r1]
      simp [selectedBy, lineFor_online, lineFor_offline, lineFor_all, Multiset.filterMap_coe]
    · rw [r2]
      simp [selectedBy]
  · obtain ⟨r1, r2, _⟩ := renderStatuses_of_profiles d false true users statuses
      (hsel false true)
    refine ⟨?_, ?_⟩
    · rw [r1]
      simp [selectedBy, lineFor_online, lineFor_offline, lineFor_all, Multiset.filterMap_coe]
    · rw [r2]
      simp [selectedBy]
  · obtain ⟨r1, r2, _⟩ := renderStatuses_of_profiles d false false users statuses
      (hsel false false)
    refine ⟨?_, ?_⟩
    · rw [r1]
      simp [selectedBy, lineFor_online, lineFor_offline, lineFor_all, Multiset.filterMap_coe]
    · rw [r2]
      simp [selectedBy]

/-- C4 at the sample maps with both flags set. -/
theorem renderStatuses_multiset_witness :
    ((renderStatuses true true true sampleUsers sampleStatuses).stdout : Multiset Output) =
        Multiset.filterMap (nameLine sampleUsers)
          (Multiset.filter (fun p => p.2 = "online")
            (sampleStatuses : Multiset (String × String))) ∧
      (renderStatuses true true true sampleUsers sampleStatuses).stdout.length =
        (sampleStatuses.filter fun p => decide (p.2 = "online")).length :=
  (renderStatuses_multiset true sampleUsers sampleStatuses (by decide)).1 true

/-- With both flags set only the online user name is printed. -/
theorem renderStatuses_both_flags (d : Bool) :
    (renderStatuses d true true sampleUsers sampleStatuses).stdout = [.text "alice"] ∧
    (renderStatuses d false true sampleUsers sampleStatuses).stdout = [.text "bob"] ∧
    (renderStatuses d false false sampleUsers sampleStatuses).stdout =
      [.text "alice online", .text "bob offline"] := by
  cases d <;> decide

/-- C5 as stated fails: `ghost` has a status and no profile.  In the mode that
prints every entry, and in the `online` mode, the report panics when the loop
reaches `ghost`, whichever entry the iteration visits first; the line of `u1`
is printed only when `u1` happens to be visited before `ghost`. -/
theorem absent_profile_counterexample :
    goLookup sampleUsers "ghost" = none ∧
    renderStatuses false false false sampleUsers ghostFirstStatuses =
      ⟨[], .error (.panic "invalid memory address or nil pointer dereference")⟩ ∧
    renderStatuses false false false sampleUsers ghostLastStatuses =
      ⟨[.out (.text "alice online")],
        .error (.panic "invalid memory address or nil pointer dereference")⟩ ∧
    renderStatuses false true false sampleUsers ghostFirstStatuses =
      ⟨[], .error (.panic "invalid memory address or nil pointer dereference")⟩ ∧
    (renderStatuses false false false sampleUsers ghostFirstStatuses).exitStatus = 2 :=
  ⟨by decide, rfl, rfl, rfl, by decide⟩

/-- C5, amended: `ListUsers` has no defensive join.  In every mode the loop
prints the lines of the entries the mode selects (status `online`, status
`offline`, or every entry) in the order of the iteration.  If an id the mode
selects has no profile, the lookup yields a `nil` pointer and the report
panics at the first such id (status 2), after the lines of the selected
entries visited before it.  An id without a profile that the mode does not
select is passed over: when every selected entry has a profile the report
returns with exactly the lines of the selected entries. -/
theorem renderStatuses_absent_profile (d onlineFlag offlineFlag : Bool)
    (users : List (String × User)) (statuses : List (String × String)) :
    ((∃ p ∈ selectedBy onlineFlag offlineFlag statuses, hasProfile users p = false) →
      (renderStatuses d onlineFlag offlineFlag users statuses).result =
        .error (.panic "invalid memory address or nil pointer dereference") ∧
      (renderStatuses d onlineFlag offlineFlag users statuses).exitStatus = 2 ∧
      (renderStatuses d onlineFlag offlineFlag users statuses).stdout =
        ((selectedBy onlineFlag offlineFlag statuses).takeWhile (hasProfile users)).filterMap
          (lineFor onlineFlag offlineFlag users) ∧
      (renderStatuses d onlineFlag offlineFlag users statuses).stdout.length <
        (selectedBy onlineFlag offlineFlag statuses).length) ∧
    ((∀ p ∈ selectedBy onlineFlag offlineFlag statuses, hasProfile users p = true) →
      (renderStatuses d onlineFlag offlineFlag users statuses).result = .ok () ∧
      (renderStatuses d onlineFlag offlineFlag users statuses).stdout =
        (selectedBy onlineFlag offlineFlag statuses).filterMap
          (lineFor onlineFlag offlineFlag users) ∧
      (renderStatuses d onlineFlag offlineFlag users statuses).stdout.length =
        (selectedBy onlineFlag offlineFlag statuses).length) := by
  obtain ⟨r1, _, r3⟩ := renderStatuses_spec d onlineFlag offlineFlag users statuses
  constructor
  · intro hex
    have hall : (selectedBy onlineFlag offlineFlag statuses).all (hasProfile users) = false := by
      obtain ⟨p, hp, hn⟩ := hex
      have : ¬ ((selectedBy onlineFlag offlineFlag statuses).all (hasProfile users) = true) := by
        intro hall
        have := List.all_eq_true.1 hall p hp
        rw [hn] at this
        exact absurd this (by decide)
      simpa using this
    have hr : (renderStatuses d onlineFlag offlineFlag users statuses).result =
        .error (.panic "invalid memory address or nil pointer dereference") := by
      rw [r3, hall]; rfl
    refine ⟨hr, by simp [Run.exitStatus, hr], r1, ?_⟩
    rw [r1]
    exact lt_of_le_of_lt ( List.length_filterMap_le _ _) (takeWhile_length_lt _ _ hex)
  · intro hall
    obtain ⟨q1, q2, q3⟩ := renderStatuses_of_profiles d onlineFlag offlineFlag users statuses hall
    exact ⟨q3, q1, q2⟩

/-- C5, amended, at statuses that end with an id without a profile, in the
`online` mode with the switch on. -/
theorem renderStatuses_absent_profile_witness :
    (renderStatuses true true false sampleUsers ghostLastStatuses).result =
        .error (.panic "invalid memory address or nil pointer dereference") ∧
      (renderStatuses true true false sampleUsers ghostLastStatuses).exitStatus = 2 ∧
      (renderStatuses true true false sampleUsers ghostLastStatuses).stdout =
        ((selectedBy true false ghostLastStatuses).takeWhile (hasProfile sampleUsers)).filterMap
          (lineFor true false sampleUsers) ∧
      (renderStatuses true true false sampleUsers ghostLastStatuses).stdout.length <
        (selectedBy true false ghostLastStatuses).length :=
  (renderStatuses_absent_profile true true false sampleUsers ghostLastStatuses).1
    ⟨("ghost", "online"), by decide, by decide⟩

/-! ## The dispatcher -/

/-- C7: when the first argument is present and is neither `ListUsers` nor
`ExportChannel`, `main` writes the line naming the invalid command to standard
output and the usage text to standard error and ends the process with status
2; no environment variable of the configuration is read and no request is
made, whatever the environment, the flag sets and the collaborator are. -/
theorem main_invalid_command (env : String → String) (F : FlagSets) (R : Remote)
    (program command : String) (rest : List String)
    (h1 : command ≠ "ListUsers") (h2 : command ≠ "ExportChannel") :
    main env F R (program :: command :: rest) =
      ⟨[.out (.invalidCommand command), .err usageText], .error (.exit 2)⟩ ∧
    (main env F R (program :: command :: rest)).exitStatus = 2 ∧
    (main env F R (program :: command :: rest)).getenvs = [] ∧
    (main env F R (program :: command :: rest)).calls = [] := by
  have h : main env F R (program :: command :: rest) =
      ⟨[.out (.invalidCommand command), .err usageText], .error (.exit 2)⟩ := by
    simp [main, h1, h2, usage, Run.stop]
  rw [h]
  exact ⟨rfl, rfl, rfl, rfl⟩

/-- C7 at the command `Foo`. -/
theorem main_invalid_command_witness :
    main sampleEnv sampleFlags sampleRemote ["mmtools", "Foo"] =
      ⟨[.out (.invalidCommand "Foo"), .err usageText], .error (.exit 2)⟩ ∧
    (main sampleEnv sampleFlags sampleRemote ["mmtools", "Foo"]).exitStatus = 2 ∧
    (main sampleEnv sampleFlags sampleRemote ["mmtools", "Foo"]).getenvs = [] ∧
    (main sampleEnv sampleFlags sampleRemote ["mmtools", "Foo"]).calls = [] :=
  main_invalid_command sampleEnv sampleFlags sampleRemote "mmtools" "Foo" [] (by decide)
    (by decide)

/-- C8: when the command is `ExportChannel` and the parsed `name` flag is the
empty string, `main` writes one hint line to standard output and returns
(status 0); the configuration is not read or checked and no login or other
request is made, whatever the environment and the collaborator are. -/
theorem main_export_empty_name (env : String → String) (F : FlagSets) (R : Remote)
    (program : String) (rest : List String) (h : F.exportChannel rest = .ok "") :
    main env F R (program :: "ExportChannel" :: rest) =
      ⟨[.out (.text "Please supply the recipient using -recipient option.")], .ok ()⟩ ∧
    (main env F R (program :: "ExportChannel" :: rest)).exitStatus = 0 ∧
    (main env F R (program :: "ExportChannel" :: rest)).getenvs = [] ∧
    (main env F R (program :: "ExportChannel" :: rest)).calls = [] := by
  have hm : main env F R (program :: "ExportChannel" :: rest) =
      ⟨[.out (.text "Please supply the recipient using -recipient option.")], .ok ()⟩ := by
    simp [main, parseFlags, h, Run.emit]
  rw [hm]
  exact ⟨rfl, rfl, rfl, rfl⟩

/-- C8 at the invocation `mmtools ExportChannel`, the flag not being given. -/
theorem main_export_empty_name_witness :
    main sampleEnv sampleFlags sampleRemote ["mmtools", "ExportChannel"] =
      ⟨[.out (.text "Please supply the recipient using -recipient option.")], .ok ()⟩ ∧
    (main sampleEnv sampleFlags sampleRemote ["mmtools", "ExportChannel"]).exitStatus = 0 ∧
    (main sampleEnv sampleFlags sampleRemote ["mmtools", "ExportChannel"]).getenvs = [] ∧
    (main sampleEnv sampleFlags sampleRemote ["mmtools", "ExportChannel"]).calls = [] :=
  main_export_empty_name sampleEnv sampleFlags sampleRemote "mmtools" [] rfl

/-- A complete run of `ExportChannel -name general` against the sample
collaborator with the switch on: the configuration is read, the login is made
before any other request, `town-square` is skipped and the four instants are
printed; the run ends with status 0. -/
theorem main_export_example :
    (main sampleEnv sampleFlags sampleRemote
      ["mmtools", "ExportChannel", "-name", "general"]).calls =
      [.newClient "http://localhost:8065", .loginByEmail "team" "alice@example.com" "secret",
        .getChannels, .getPostsSince "c1" 0, .getPostsSince "c2" 0] ∧
    (main sampleEnv sampleFlags sampleRemote
      ["mmtools", "ExportChannel", "-name", "general"]).stdout =
      [.instant 2000 0, .instant 1000 0, .instant 2000 0, .instant 1000 0] ∧
    (main sampleEnv sampleFlags sampleRemote
      ["mmtools", "ExportChannel", "-name", "general"]).getenvs =
      ["MMEP", "MMTEAM", "MMMAIL", "MMPASS"] ∧
    (main sampleEnv sampleFlags sampleRemote
      ["mmtools", "ExportChannel", "-name", "general"]).exitStatus = 0 := by
  decide

/-- A complete run of `ListUsers` against the sample collaborator. -/
theorem main_listUsers_example :
    (main sampleEnv sampleFlags sampleRemote ["mmtools", "ListUsers"]).calls =
      [.newClient "http://localhost:8065", .loginByEmail "team" "alice@example.com" "secret",
        .getProfiles "t1", .getStatuses ["u1", "u2"]] ∧
    (main sampleEnv sampleFlags sampleRemote ["mmtools", "ListUsers"]).stdout =
      [.text "alice online", .text "bob offline"] ∧
    (main sampleEnv sampleFlags sampleRemote ["mmtools", "ListUsers"]).exitStatus = 0 := by
  decide

end MMTools
